import Mathlib

/-!
# Shallow embedding of the prism-ai TypeScript client

This file embeds `src/index.ts` and `src/types.ts` of the npm-prism-ai
repository.  Every client method of the source performs at most one `fetch`
call; we therefore model each method as

* a pure *request builder*: the argument that `fetch` would be called with
  (URL, HTTP verb, headers, serialized JSON body), computed from the method's
  arguments exactly as the source computes it, and
* a pure *response handler*: what the method does with the resolved
  `Response` object (`safeFetchCall` for the JSON-normalizing clients, the
  body check for `ReplyClient`).

A validation failure in `KnowledgeClient.create` is thrown before `fetch` is
reached; in the embedding the builder returns `.error` and no `Request` value
exists, so no network call is made.  `networkCalls` counts the fetches a
builder result gives rise to (1 for `.ok`, 0 for `.error`).

JavaScript truthiness on the optional parameters (`if (x) body.x = x`) is
modelled by matching on the `Option` and testing the value against the falsy
value of its type (`0` for numbers, `false` for booleans, `""` for strings).
The platform URL parser invoked by `new URL(str)` inside `isValidURL` is
external to the repository, so it enters the embedding as an explicit
function parameter `isValidURL : String → Bool`.
-/

namespace PrismAI

/-- JSON values.  Numbers are restricted to the integers, which covers every
number this client ever places in a request body. -/
inductive Json where
  | null : Json
  | bool : Bool → Json
  | num : Int → Json
  | str : String → Json
  | arr : List Json → Json
  | obj : List (String × Json) → Json

/-- Does a serialized JSON object contain a field named `k`? -/
def Json.hasField : Json → String → Bool
  | .obj fs, k => fs.any (fun p => p.1 == k)
  | _, _ => false

/-- The value of field `k` of a JSON object, `none` when the field is absent
(note: absent, not `null` — a field holding JSON `null` yields `some .null`). -/
def Json.getField : Json → String → Option Json
  | .obj fs, k => (fs.find? (fun p => p.1 == k)).map (fun p => p.2)
  | _, _ => none

/-- The field names of a JSON object, in serialization order. -/
def Json.keys : Json → List String
  | .obj fs => fs.map (fun p => p.1)
  | _ => []

/-- HTTP verbs used by the client. -/
inductive HttpMethod where
  | get
  | post
  | delete
deriving Repr, DecidableEq

/-- The header object built by `BaseClient`'s constructor (three fixed keys). -/
structure Headers where
  contentType : String
  accept : String
  authorization : String
deriving Repr, DecidableEq

/-- `class BaseClient`: the configuration shared by the three clients. -/
structure BaseClient where
  api_url : String
  headers : Headers
deriving Repr, DecidableEq

/-- `new BaseClient({ api_key, api_url })`. -/
def mkBaseClient (api_key : String) (api_url : String) : BaseClient :=
  { api_url := api_url
    headers :=
      { contentType := "application/json"
        accept := "application/json"
        authorization := api_key } }

/-- The argument of a `fetch` call: URL, verb, headers and (for POSTs) the
JSON body passed through `JSON.stringify`.  The body is kept as structured
JSON with fields in insertion order, which is the order `JSON.stringify`
serializes them in. -/
structure Request where
  url : String
  method : HttpMethod
  headers : Headers
  body : Option Json

/-- `class ValidationError extends Error`. -/
structure ValidationError where
  message : String
deriving Repr, DecidableEq

/-- A plain JavaScript `Error` value, as returned (not thrown) by
`safeFetchCall` and by the `ReplyClient` methods. -/
structure Err where
  message : String
deriving Repr, DecidableEq

/-- A resolved `fetch` `Response`: HTTP status, status text, the parsed JSON
body (`response.json()`, for the responses the JSON-normalizing clients
consume), and `response.body` as an optional stream of text chunks, `none`
modelling a null/absent body. -/
structure Response where
  status : Nat
  statusText : String
  json : Json
  body : Option (List String)

/-- `response.ok`: status in the 200–299 range. -/
def Response.ok (r : Response) : Bool :=
  decide (200 ≤ r.status) && decide (r.status < 300)

/-- `safeFetchCall`: awaits the response; a non-ok status becomes an `Error`
carrying the HTTP status text, otherwise the parsed JSON body is returned
unchanged. -/
def safeFetchCall (response : Response) : Except Err Json :=
  if !response.ok then
    .error ⟨response.statusText⟩
  else
    .ok response.json

/-- The count of network calls a `KnowledgeClient.create` invocation issues:
`fetch` is reached exactly when the builder produced a `Request`. -/
def networkCalls {α : Type} : Except ValidationError α → Nat
  | .ok _ => 1
  | .error _ => 0

namespace KnowledgeBaseClient

/-- `KnowledgeBaseClient.create({ name })`: the request it fetches.  The
response is then normalized by `safeFetchCall`. -/
def create (c : BaseClient) (name : String) : Request :=
  { url := c.api_url ++ "/users/knowledge_base/"
    method := .post
    headers := c.headers
    body := some (Json.obj [("name", Json.str name)]) }

/-- `KnowledgeBaseClient.get({ kb_id })`: the request it fetches. -/
def get (c : BaseClient) (kb_id : Int) : Request :=
  { url := c.api_url ++ "/users/knowledge_base/" ++ toString kb_id ++ "/"
    method := .get
    headers := c.headers
    body := none }

/-- `KnowledgeBaseClient.delete({ kb_id })`: the request it fetches. -/
def delete (c : BaseClient) (kb_id : Int) : Request :=
  { url := c.api_url ++ "/knowledge_base/" ++ toString kb_id ++ "/"
    method := .delete
    headers := c.headers
    body := none }

end KnowledgeBaseClient

/-- The (destructured) argument object of `KnowledgeClient.create`. -/
structure KnowledgeCreateArgs where
  method : String
  name : String
  kb_id : Int
  url : Option String := none
  text : Option String := none
  recursion : Option Bool := none
  max_recursion : Option Int := none
  only_base_url : Option Bool := none

namespace KnowledgeClient

/-- `KnowledgeClient.create({...})` up to and including the construction of
the `fetch` argument.  `.error e` models `throw new ValidationError(e)`
happening before any network call; `.ok req` models reaching
`fetch(methodPath, {...})` with exactly this request.  `isValidURL` is the
source's helper built on the platform's `new URL` parser, taken as a
parameter.  The body starts as `{ name }` and each branch appends its fields
in source order, skipping JavaScript-falsy optional flags. -/
def create (c : BaseClient) (isValidURL : String → Bool)
    (a : KnowledgeCreateArgs) : Except ValidationError Request :=
  let base : List (String × Json) := [("name", Json.str a.name)]
  match a.method with
  | "url" =>
    match a.url with
    | none => .error ⟨"Invalid or missing URL."⟩
    | some u =>
      if u == "" || !isValidURL u then
        .error ⟨"Invalid or missing URL."⟩
      else
        let fields := base ++ [("url", Json.str u)]
        let fields :=
          match a.recursion with
          | some r => if r then fields ++ [("recursion", Json.bool r)] else fields
          | none => fields
        let fields :=
          match a.max_recursion with
          | some m => if m != 0 then fields ++ [("max_recursion", Json.num m)] else fields
          | none => fields
        let fields :=
          match a.only_base_url with
          | some b => if b then fields ++ [("only_base_url", Json.bool b)] else fields
          | none => fields
        .ok { url := c.api_url ++ "/users/knowledge_base/" ++ toString a.kb_id
                      ++ "/knowledge_from_url/"
              method := .post
              headers := c.headers
              body := some (Json.obj fields) }
  | "text" =>
    match a.text with
    | none => .error ⟨"Missing text."⟩
    | some t =>
      if t == "" then
        .error ⟨"Missing text."⟩
      else
        .ok { url := c.api_url ++ "/users/knowledge_base/" ++ toString a.kb_id
                      ++ "/knowledge_from_text/"
              method := .post
              headers := c.headers
              body := some (Json.obj (base ++ [("text", Json.str t)])) }
  | _ => .error ⟨"Invalid method. Must be \x27url\x27, \x27text\x27, or \x27path\x27."⟩

/-- `KnowledgeClient.get({ knowledge_id })`: the request it fetches. -/
def get (c : BaseClient) (knowledge_id : Int) : Request :=
  { url := c.api_url ++ "/knowledge/" ++ toString knowledge_id ++ "/"
    method := .get
    headers := c.headers
    body := none }

/-- `KnowledgeClient.delete({ knowledge_id })`: the request it fetches. -/
def delete (c : BaseClient) (knowledge_id : Int) : Request :=
  { url := c.api_url ++ "/knowledge/" ++ toString knowledge_id ++ "/"
    method := .delete
    headers := c.headers
    body := none }

end KnowledgeClient

/-- The (destructured) argument object of `ReplyClient.create` and
`ReplyClient.stream` (both take the identical parameter set). -/
structure ReplyArgs where
  prompt : String
  conversation_id : Option Int := none
  knowledge_base : Option String := none
  max_tokens : Option Int := none
  num_results : Option Int := none
  model : Option String := none

/-- `StreamingTextResponse(response.body)` from the `ai` package: the response
body wrapped as an incrementally consumable text stream.  We model the
single-pass stream by the sequence of chunks it will yield. -/
structure StreamingTextResponse where
  chunks : List String

namespace ReplyClient

/-- The `CreateBody` built by `ReplyClient.create`: always `user_prompt`,
then each optional field appended only when JavaScript-truthy. -/
def createBody (a : ReplyArgs) : Json :=
  let fields : List (String × Json) := [("user_prompt", Json.str a.prompt)]
  let fields :=
    match a.conversation_id with
    | some v => if v != 0 then fields ++ [("conversation_id", Json.num v)] else fields
    | none => fields
  let fields :=
    match a.knowledge_base with
    | some s => if s != "" then fields ++ [("knowledge_base", Json.str s)] else fields
    | none => fields
  let fields :=
    match a.max_tokens with
    | some v => if v != 0 then fields ++ [("max_tokens", Json.num v)] else fields
    | none => fields
  let fields :=
    match a.num_results with
    | some v => if v != 0 then fields ++ [("num_results", Json.num v)] else fields
    | none => fields
  let fields :=
    match a.model with
    | some s => if s != "" then fields ++ [("model", Json.str s)] else fields
    | none => fields
  Json.obj fields

/-- `ReplyClient.create({...})`: the request it fetches.  The headers are the
base headers with `Accept` re-set (to its existing value) by
`updatedHeadersForStream`. -/
def create (c : BaseClient) (a : ReplyArgs) : Request :=
  { url := c.api_url ++ "/response/"
    method := .post
    headers := { c.headers with accept := "application/json" }
    body := some (createBody a) }

/-- The `StreamBody` built by `ReplyClient.stream`; the construction in the
source is textually identical to `CreateBody`'s. -/
def streamBody (a : ReplyArgs) : Json :=
  let fields : List (String × Json) := [("user_prompt", Json.str a.prompt)]
  let fields :=
    match a.conversation_id with
    | some v => if v != 0 then fields ++ [("conversation_id", Json.num v)] else fields
    | none => fields
  let fields :=
    match a.knowledge_base with
    | some s => if s != "" then fields ++ [("knowledge_base", Json.str s)] else fields
    | none => fields
  let fields :=
    match a.max_tokens with
    | some v => if v != 0 then fields ++ [("max_tokens", Json.num v)] else fields
    | none => fields
  let fields :=
    match a.num_results with
    | some v => if v != 0 then fields ++ [("num_results", Json.num v)] else fields
    | none => fields
  let fields :=
    match a.model with
    | some s => if s != "" then fields ++ [("model", Json.str s)] else fields
    | none => fields
  Json.obj fields

/-- `ReplyClient.stream({...})`: the request it fetches, with `Accept`
overridden to `text/response-stream`. -/
def stream (c : BaseClient) (a : ReplyArgs) : Request :=
  { url := c.api_url ++ "/response_stream/"
    method := .post
    headers := { c.headers with accept := "text/response-stream" }
    body := some (streamBody a) }

/-- What `ReplyClient.create` does with the resolved response: a null body
yields `Error("No response body.")`; otherwise the raw response is returned
untouched (no `safeFetchCall`, no JSON parsing, no status check). -/
def createResult (response : Response) : Except Err Response :=
  match response.body with
  | none => .error ⟨"No response body."⟩
  | some _ => .ok response

/-- What `ReplyClient.stream` does with the resolved response: a null body
yields `Error("No response body.")`; otherwise the body is wrapped in a
`StreamingTextResponse`. -/
def streamResult (response : Response) : Except Err StreamingTextResponse :=
  match response.body with
  | none => .error ⟨"No response body."⟩
  | some chunks => .ok ⟨chunks⟩

end ReplyClient

/-- The facade object returned by the default-export factory. -/
structure Pai where
  KnowledgeBase : BaseClient
  Knowledge : BaseClient
  Reply : BaseClient

/-- `export default function pai({ api_key })`: fixes the base URL and
instantiates the three clients on it. -/
def pai (api_key : String) : Pai :=
  let api_url := "https://api.prism-ai.ch"
  { KnowledgeBase := mkBaseClient api_key api_url
    Knowledge := mkBaseClient api_key api_url
    Reply := mkBaseClient api_key api_url }

/-- JavaScript truthiness of an optional integer parameter (`0` is falsy). -/
def truthyInt : Option Int → Bool
  | some v => v != 0
  | none => false

/-- JavaScript truthiness of an optional boolean parameter. -/
def truthyBool : Option Bool → Bool
  | some b => b
  | none => false

/-- JavaScript truthiness of an optional string parameter (`""` is falsy). -/
def truthyStr : Option String → Bool
  | some s => s != ""
  | none => false

/-! ## Theorems about the claims -/

/-- C1: a `KnowledgeClient.create` call with `method = "url"` whose `url`
argument is absent or rejected by the URL parser raises the validation error
synchronously (the builder never produces a `Request`) and issues zero
network calls. -/
theorem knowledge_create_url_invalid_fails
    (c : BaseClient) (isValidURL : String → Bool) (a : KnowledgeCreateArgs)
    (hm : a.method = "url")
    (hu : a.url = none ∨ ∃ u, a.url = some u ∧ isValidURL u = false) :
    KnowledgeClient.create c isValidURL a = .error ⟨"Invalid or missing URL."⟩ ∧
    networkCalls (KnowledgeClient.create c isValidURL a) = 0 := by
  have h : KnowledgeClient.create c isValidURL a = .error ⟨"Invalid or missing URL."⟩ := by
    unfold KnowledgeClient.create
    rw [hm]
    rcases hu with h0 | ⟨u, hu, hv⟩
    · rw [h0]
      rfl
    · rw [hu]
      simp [hv]
  exact ⟨h, by rw [h]; rfl⟩

/-- Witness for C1 at the spec's example input `url = "not a url"` (with a
URL-parser oracle rejecting it). -/
theorem knowledge_create_url_invalid_fails_witness :
    KnowledgeClient.create (mkBaseClient "key" "https://api.prism-ai.ch")
        (fun _ => false)
        { method := "url", name := "n", kb_id := 1, url := some "not a url" }
      = .error ⟨"Invalid or missing URL."⟩ ∧
    networkCalls (KnowledgeClient.create (mkBaseClient "key" "https://api.prism-ai.ch")
        (fun _ => false)
        { method := "url", name := "n", kb_id := 1, url := some "not a url" }) = 0 :=
  knowledge_create_url_invalid_fails _ _ _ rfl (Or.inr ⟨"not a url", rfl, rfl⟩)

/-- C2: a `KnowledgeClient.create` call with `method = "text"` whose `text`
argument is omitted or empty raises the validation error before any network
call and issues zero network calls. -/
theorem knowledge_create_text_missing_fails
    (c : BaseClient) (isValidURL : String → Bool) (a : KnowledgeCreateArgs)
    (hm : a.method = "text")
    (ht : a.text = none ∨ a.text = some "") :
    KnowledgeClient.create c isValidURL a = .error ⟨"Missing text."⟩ ∧
    networkCalls (KnowledgeClient.create c isValidURL a) = 0 := by
  have h : KnowledgeClient.create c isValidURL a = .error ⟨"Missing text."⟩ := by
    unfold KnowledgeClient.create
    rw [hm]
    rcases ht with h0 | h0 <;> rw [h0] <;> rfl
  exact ⟨h, by rw [h]; rfl⟩

/-- Witness for C2 at `text = ""`. -/
theorem knowledge_create_text_missing_fails_witness :
    KnowledgeClient.create (mkBaseClient "key" "https://api.prism-ai.ch")
        (fun _ => true)
        { method := "text", name := "n", kb_id := 1, text := some "" }
      = .error ⟨"Missing text."⟩ ∧
    networkCalls (KnowledgeClient.create (mkBaseClient "key" "https://api.prism-ai.ch")
        (fun _ => true)
        { method := "text", name := "n", kb_id := 1, text := some "" }) = 0 :=
  knowledge_create_text_missing_fails _ _ _ rfl (Or.inr rfl)

/-- C3: a `KnowledgeClient.create` call with any `method` other than `"url"`
or `"text"` raises the validation error whose message names the supported
methods (it is exactly the string naming 'url', 'text' and 'path'), and
issues zero network calls. -/
theorem knowledge_create_bad_method_fails
    (c : BaseClient) (isValidURL : String → Bool) (a : KnowledgeCreateArgs)
    (hm1 : a.method ≠ "url") (hm2 : a.method ≠ "text") :
    KnowledgeClient.create c isValidURL a
      = .error ⟨"Invalid method. Must be \x27url\x27, \x27text\x27, or \x27path\x27."⟩ ∧
    networkCalls (KnowledgeClient.create c isValidURL a) = 0 := by
  have h : KnowledgeClient.create c isValidURL a
      = .error ⟨"Invalid method. Must be \x27url\x27, \x27text\x27, or \x27path\x27."⟩ := by
    unfold KnowledgeClient.create
    split
    · exact absurd ‹a.method = "url"› hm1
    · exact absurd ‹a.method = "text"› hm2
    · rfl
  exact ⟨h, by rw [h]; rfl⟩

/-- Witness for C3 at the unimplemented `method = "path"`: it fails even
though the error message names it. -/
theorem knowledge_create_bad_method_fails_witness :
    KnowledgeClient.create (mkBaseClient "key" "https://api.prism-ai.ch")
        (fun _ => true)
        { method := "path", name := "n", kb_id := 1, url := some "https://e.ch" }
      = .error ⟨"Invalid method. Must be \x27url\x27, \x27text\x27, or \x27path\x27."⟩ ∧
    networkCalls (KnowledgeClient.create (mkBaseClient "key" "https://api.prism-ai.ch")
        (fun _ => true)
        { method := "path", name := "n", kb_id := 1, url := some "https://e.ch" }) = 0 :=
  knowledge_create_bad_method_fails _ _ _ (by decide) (by decide)

/-- C4: `safeFetchCall` returns, for every resolved response, an error whose
message equals the HTTP status text when the status indicates failure, and
otherwise the parsed JSON body unchanged. -/
theorem safeFetchCall_normalizes (r : Response) :
    (r.ok = false → safeFetchCall r = .error ⟨r.statusText⟩) ∧
    (r.ok = true → safeFetchCall r = .ok r.json) := by
  unfold safeFetchCall
  constructor <;> intro h <;> simp [h]

/-- Witness for C4: a 404 with status text "Not Found" yields
`Error("Not Found")`; a 200 carrying the spec's example knowledge-base JSON
body yields exactly that body. -/
theorem safeFetchCall_normalizes_witness :
    safeFetchCall { status := 404, statusText := "Not Found", json := Json.null, body := none }
      = .error ⟨"Not Found"⟩ ∧
    safeFetchCall
        { status := 200, statusText := "OK"
          json := Json.obj [("id", Json.num 1), ("owner_id", Json.num 5),
            ("name", Json.str "kb1"), ("created", Json.str "t1"),
            ("updated", Json.str "t1"), ("knowledges", Json.arr [])]
          body := none }
      = .ok (Json.obj [("id", Json.num 1), ("owner_id", Json.num 5),
            ("name", Json.str "kb1"), ("created", Json.str "t1"),
            ("updated", Json.str "t1"), ("knowledges", Json.arr [])]) :=
  ⟨(safeFetchCall_normalizes _).1 rfl, (safeFetchCall_normalizes _).2 rfl⟩

/-- C6: for `ReplyClient.create` and `ReplyClient.stream`, an absent body
yields `Error("No response body.")` (the branch never touches the parsed
JSON); otherwise `create` returns the raw response itself and `stream`
returns the body wrapped as an incrementally consumable text stream. -/
theorem reply_body_handling (r : Response) :
    (r.body = none →
      ReplyClient.createResult r = .error ⟨"No response body."⟩ ∧
      ReplyClient.streamResult r = .error ⟨"No response body."⟩) ∧
    (∀ chunks, r.body = some chunks →
      ReplyClient.createResult r = .ok r ∧
      ReplyClient.streamResult r = .ok ⟨chunks⟩) := by
  constructor
  · intro h
    constructor
    · unfold ReplyClient.createResult
      rw [h]
    · unfold ReplyClient.streamResult
      rw [h]
  · intro chunks h
    constructor
    · unfold ReplyClient.createResult
      rw [h]
    · unfold ReplyClient.streamResult
      rw [h]

/-- Witness for C6: a body-less response errors on both methods; a chunked
body `["Hel", "lo"]` is passed through (`create`) and wrapped (`stream`). -/
theorem reply_body_handling_witness :
    ReplyClient.createResult { status := 200, statusText := "OK", json := Json.null, body := none }
      = .error ⟨"No response body."⟩ ∧
    ReplyClient.streamResult { status := 200, statusText := "OK", json := Json.null, body := none }
      = .error ⟨"No response body."⟩ ∧
    ReplyClient.streamResult
        { status := 200, statusText := "OK", json := Json.null, body := some ["Hel", "lo"] }
      = .ok ⟨["Hel", "lo"]⟩ :=
  ⟨(reply_body_handling _).1 rfl |>.1,
   (reply_body_handling _).1 rfl |>.2,
   ((reply_body_handling _).2 ["Hel", "lo"] rfl).2⟩

/-- Counterexample to C7 as stated: `ReplyClient.create` never checks the
HTTP status, so a 500 response that has a body is returned to the caller as
a success value, not as an error carrying the status text. -/
theorem reply_nonsuccess_passthrough_cex :
    Response.ok
        { status := 500
          statusText := "Internal Server Error"
          json := Json.null
          body := some ["oops"] } = false ∧
    ReplyClient.createResult
        { status := 500
          statusText := "Internal Server Error"
          json := Json.null
          body := some ["oops"] }
      = .ok { status := 500
              statusText := "Internal Server Error"
              json := Json.null
              body := some ["oops"] } :=
  ⟨rfl, rfl⟩

/-- C7 amended: operations that go through `safeFetchCall` (all
knowledge-base and knowledge operations) surface every non-success HTTP
status as an error value carrying the status text; the reply endpoints
return an error exactly when the body is absent (the fixed
"No response body." message) and otherwise return the response/stream
regardless of HTTP status. -/
theorem http_error_surfacing (r : Response) :
    (r.ok = false → safeFetchCall r = .error ⟨r.statusText⟩) ∧
    (r.body = none →
      ReplyClient.createResult r = .error ⟨"No response body."⟩ ∧
      ReplyClient.streamResult r = .error ⟨"No response body."⟩) ∧
    (∀ chunks, r.body = some chunks →
      ReplyClient.createResult r = .ok r ∧
      ReplyClient.streamResult r = .ok ⟨chunks⟩) := by
  refine ⟨fun h => ?_, fun h => ?_, fun chunks h => ⟨?_, ?_⟩⟩
  · unfold safeFetchCall
    simp [h]
  · constructor
    · unfold ReplyClient.createResult
      rw [h]
    · unfold ReplyClient.streamResult
      rw [h]
  · unfold ReplyClient.createResult
    rw [h]
  · unfold ReplyClient.streamResult
    rw [h]

/-- Witness for the amended C7: a 404 through `safeFetchCall` becomes
`Error("Not Found")`, a body-less reply response becomes
`Error("No response body.")`, and a 500 whose body is present is passed
through by `create` and wrapped by `stream` despite the failure status. -/
theorem http_error_surfacing_witness :
    safeFetchCall { status := 404, statusText := "Not Found", json := Json.null, body := some [] }
      = .error ⟨"Not Found"⟩ ∧
    ReplyClient.createResult { status := 200, statusText := "OK", json := Json.null, body := none }
      = .error ⟨"No response body."⟩ ∧
    ReplyClient.createResult
        { status := 500
          statusText := "Internal Server Error"
          json := Json.null
          body := some ["x"] }
      = .ok { status := 500
              statusText := "Internal Server Error"
              json := Json.null
              body := some ["x"] } ∧
    ReplyClient.streamResult
        { status := 500
          statusText := "Internal Server Error"
          json := Json.null
          body := some ["x"] }
      = .ok ⟨["x"]⟩ :=
  ⟨(http_error_surfacing _).1 rfl, ((http_error_surfacing _).2.1 rfl).1,
   ((http_error_surfacing _).2.2 ["x"] rfl).1, ((http_error_surfacing _).2.2 ["x"] rfl).2⟩

/-- Counterexample to C5 as stated: an optional field the caller explicitly
supplied with a JavaScript-falsy value is dropped from the body.  Here
`max_tokens := some 0` is supplied, yet the serialized body of
`ReplyClient.create` is exactly `{ user_prompt: "p" }`, with no `max_tokens`
field. -/
theorem reply_supplied_falsy_omitted_cex :
    (ReplyClient.create (mkBaseClient "key" "https://api.prism-ai.ch")
        { prompt := "p", max_tokens := some 0 }).body
      = some (Json.obj [("user_prompt", Json.str "p")]) :=
  rfl

/-- C10: in text mode the serialized body is exactly `{ name, text }` (none
of the URL-mode fields appear), and in url mode the body never contains a
`text` field. -/
theorem knowledge_create_body_mode_fields
    (c : BaseClient) (isValidURL : String → Bool) (a a2 : KnowledgeCreateArgs)
    (t u : String)
    (hm : a.method = "text") (ht : a.text = some t) (htne : t ≠ "")
    (hm2 : a2.method = "url") (hu : a2.url = some u) (hune : u ≠ "")
    (hv : isValidURL u = true) :
    (∃ req, KnowledgeClient.create c isValidURL a = .ok req ∧
      req.body = some (Json.obj [("name", Json.str a.name), ("text", Json.str t)])) ∧
    (∃ req, KnowledgeClient.create c isValidURL a2 = .ok req ∧
      ∀ bj, req.body = some bj → bj.hasField "text" = false) := by
  constructor
  · have hte : (t == "") = false := by simp [htne]
    obtain ⟨m1, n1, kb1, u1, t1, rc1, mr1, ob1⟩ := a
    dsimp only at hm ht
    subst hm
    subst ht
    simp only [KnowledgeClient.create, hte, Bool.false_eq_true, if_false]
    exact ⟨_, rfl, rfl⟩
  · have hg : (u == "" || !isValidURL u) = false := by simp [hune, hv]
    obtain ⟨m2, n2, kb2, u2, t2, rc2, mr2, ob2⟩ := a2
    dsimp only at hm2 hu
    subst hm2
    subst hu
    rcases rc2 with _ | r <;> rcases mr2 with _ | m0 <;> rcases ob2 with _ | b0 <;>
      simp only [KnowledgeClient.create, hg, Bool.false_eq_true, if_false] <;>
      first
      | (split_ifs <;>
          (refine ⟨_, rfl, ?_⟩
           intro bj hb
           cases hb
           rfl))
      | (refine ⟨_, rfl, ?_⟩
         intro bj hb
         cases hb
         rfl)

/-- Witness for C10 at concrete text-mode and url-mode inputs. -/
theorem knowledge_create_body_mode_fields_witness :
    (∃ req, KnowledgeClient.create (mkBaseClient "k" "https://api.prism-ai.ch")
        (fun _ => true)
        { method := "text", name := "n", kb_id := 1, text := some "hello" } = .ok req ∧
      req.body = some (Json.obj [("name", Json.str "n"), ("text", Json.str "hello")])) ∧
    (∃ req, KnowledgeClient.create (mkBaseClient "k" "https://api.prism-ai.ch")
        (fun _ => true)
        { method := "url", name := "n", kb_id := 1, url := some "https://e.ch" } = .ok req ∧
      ∀ bj, req.body = some bj → bj.hasField "text" = false) :=
  knowledge_create_body_mode_fields _ _ _ _ _ _ rfl rfl (by decide) rfl rfl (by decide) rfl

/-- C8: every operation of the facade built by `pai` targets exactly the
HTTP verb and path of the external-interface table, prefixed by the fixed
base URL `https://api.prism-ai.ch`; in particular `KnowledgeBaseClient.get`
uses GET `/users/knowledge_base/{kb_id}/` while `KnowledgeBaseClient.delete`
uses DELETE `/knowledge_base/{kb_id}/` (no `/users` prefix), for every
integer `kb_id`. -/
theorem operation_methods_and_paths
    (api_key nm : String) (kb_id knowledge_id : Int) (ra : ReplyArgs) :
    (KnowledgeBaseClient.create (pai api_key).KnowledgeBase nm).method = .post ∧
    (KnowledgeBaseClient.create (pai api_key).KnowledgeBase nm).url
      = "https://api.prism-ai.ch" ++ "/users/knowledge_base/" ∧
    (KnowledgeBaseClient.get (pai api_key).KnowledgeBase kb_id).method = .get ∧
    (KnowledgeBaseClient.get (pai api_key).KnowledgeBase kb_id).url
      = "https://api.prism-ai.ch" ++ "/users/knowledge_base/" ++ toString kb_id ++ "/" ∧
    (KnowledgeBaseClient.delete (pai api_key).KnowledgeBase kb_id).method = .delete ∧
    (KnowledgeBaseClient.delete (pai api_key).KnowledgeBase kb_id).url
      = "https://api.prism-ai.ch" ++ "/knowledge_base/" ++ toString kb_id ++ "/" ∧
    (∀ isValidURL a req,
      KnowledgeClient.create (pai api_key).Knowledge isValidURL a = .ok req →
      req.method = .post ∧
      (a.method = "url" → req.url = "https://api.prism-ai.ch" ++ "/users/knowledge_base/"
          ++ toString a.kb_id ++ "/knowledge_from_url/") ∧
      (a.method = "text" → req.url = "https://api.prism-ai.ch" ++ "/users/knowledge_base/"
          ++ toString a.kb_id ++ "/knowledge_from_text/")) ∧
    (KnowledgeClient.get (pai api_key).Knowledge knowledge_id).method = .get ∧
    (KnowledgeClient.get (pai api_key).Knowledge knowledge_id).url
      = "https://api.prism-ai.ch" ++ "/knowledge/" ++ toString knowledge_id ++ "/" ∧
    (KnowledgeClient.delete (pai api_key).Knowledge knowledge_id).method = .delete ∧
    (KnowledgeClient.delete (pai api_key).Knowledge knowledge_id).url
      = "https://api.prism-ai.ch" ++ "/knowledge/" ++ toString knowledge_id ++ "/" ∧
    (ReplyClient.create (pai api_key).Reply ra).method = .post ∧
    (ReplyClient.create (pai api_key).Reply ra).url
      = "https://api.prism-ai.ch" ++ "/response/" ∧
    (ReplyClient.stream (pai api_key).Reply ra).method = .post ∧
    (ReplyClient.stream (pai api_key).Reply ra).url
      = "https://api.prism-ai.ch" ++ "/response_stream/" := by
  refine ⟨rfl, rfl, rfl, rfl, rfl, rfl, ?_, rfl, rfl, rfl, rfl, rfl, rfl, rfl, rfl⟩
  intro isValidURL a req h
  unfold KnowledgeClient.create at h
  split at h
  · rename_i hm
    split at h
    · exact absurd h (by simp)
    · split at h
      · exact absurd h (by simp)
      · cases h
        refine ⟨rfl, fun _ => rfl, fun hth => ?_⟩
        rw [hm] at hth
        exact absurd hth (by decide)
  · rename_i hm
    split at h
    · exact absurd h (by simp)
    · split at h
      · exact absurd h (by simp)
      · cases h
        refine ⟨rfl, fun hth => ?_, fun _ => rfl⟩
        rw [hm] at hth
        exact absurd hth (by decide)
  · exact absurd h (by simp)

/-- Witness for C8: the two paths the claim singles out, at `kb_id = 42`,
plus a successful url-mode knowledge creation hitting its table path. -/
theorem operation_methods_and_paths_witness :
    (KnowledgeBaseClient.get (pai "k").KnowledgeBase 42).url
      = "https://api.prism-ai.ch/users/knowledge_base/42/" ∧
    (KnowledgeBaseClient.delete (pai "k").KnowledgeBase 42).url
      = "https://api.prism-ai.ch/knowledge_base/42/" := by
  obtain ⟨-, -, -, h4, -, h6, -⟩ := operation_methods_and_paths "k" "n" 42 7 { prompt := "p" }
  exact ⟨h4.trans (by decide), h6.trans (by decide)⟩

/-- C9: every request of every operation carries
`Content-Type: application/json` and `Authorization: <credential>`, with
`Accept: application/json` everywhere except `ReplyClient.stream`, which
sends `Accept: text/response-stream`. -/
theorem request_headers_invariant
    (api_key nm : String) (kb_id knowledge_id : Int) (ra : ReplyArgs) :
    (KnowledgeBaseClient.create (pai api_key).KnowledgeBase nm).headers
      = ⟨"application/json", "application/json", api_key⟩ ∧
    (KnowledgeBaseClient.get (pai api_key).KnowledgeBase kb_id).headers
      = ⟨"application/json", "application/json", api_key⟩ ∧
    (KnowledgeBaseClient.delete (pai api_key).KnowledgeBase kb_id).headers
      = ⟨"application/json", "application/json", api_key⟩ ∧
    (∀ isValidURL a req,
      KnowledgeClient.create (pai api_key).Knowledge isValidURL a = .ok req →
      req.headers = ⟨"application/json", "application/json", api_key⟩) ∧
    (KnowledgeClient.get (pai api_key).Knowledge knowledge_id).headers
      = ⟨"application/json", "application/json", api_key⟩ ∧
    (KnowledgeClient.delete (pai api_key).Knowledge knowledge_id).headers
      = ⟨"application/json", "application/json", api_key⟩ ∧
    (ReplyClient.create (pai api_key).Reply ra).headers
      = ⟨"application/json", "application/json", api_key⟩ ∧
    (ReplyClient.stream (pai api_key).Reply ra).headers
      = ⟨"application/json", "text/response-stream", api_key⟩ := by
  refine ⟨rfl, rfl, rfl, ?_, rfl, rfl, rfl, rfl⟩
  intro isValidURL a req h
  unfold KnowledgeClient.create at h
  split at h
  · split at h
    · exact absurd h (by simp)
    · split at h
      · exact absurd h (by simp)
      · cases h
        rfl
  · split at h
    · exact absurd h (by simp)
    · split at h
      · exact absurd h (by simp)
      · cases h
        rfl
  · exact absurd h (by simp)

/-- Witness for C9: the header set of a concrete get, a concrete successful
text-mode knowledge creation, and a concrete streaming reply. -/
theorem request_headers_invariant_witness :
    (KnowledgeBaseClient.get (pai "secret").KnowledgeBase 1).headers
      = ⟨"application/json", "application/json", "secret"⟩ ∧
    (ReplyClient.stream (pai "secret").Reply { prompt := "p" }).headers
      = ⟨"application/json", "text/response-stream", "secret"⟩ ∧
    ∀ req, KnowledgeClient.create (pai "secret").Knowledge (fun _ => true)
        { method := "text", name := "n", kb_id := 1, text := some "hi" } = .ok req →
      req.headers = ⟨"application/json", "application/json", "secret"⟩ := by
  obtain ⟨-, h2, -, h4, -, -, -, h8⟩ :=
    request_headers_invariant "secret" "n" 1 1 { prompt := "p" }
  exact ⟨h2, h8, fun req h => h4 (fun _ => true) _ req h⟩

set_option maxHeartbeats 2000000 in
/-- Field characterization of the body built by `ReplyClient.create`:
`user_prompt` is always present, each optional field is present exactly when
supplied truthy (and then carries the supplied value), and no other field
occurs. -/
theorem createBody_fields (a : ReplyArgs) :
    (ReplyClient.createBody a).getField "user_prompt" = some (Json.str a.prompt) ∧
    (ReplyClient.createBody a).getField "conversation_id"
      = (a.conversation_id.bind fun v => if v != 0 then some (Json.num v) else none) ∧
    (ReplyClient.createBody a).getField "knowledge_base"
      = (a.knowledge_base.bind fun s => if s != "" then some (Json.str s) else none) ∧
    (ReplyClient.createBody a).getField "max_tokens"
      = (a.max_tokens.bind fun v => if v != 0 then some (Json.num v) else none) ∧
    (ReplyClient.createBody a).getField "num_results"
      = (a.num_results.bind fun v => if v != 0 then some (Json.num v) else none) ∧
    (ReplyClient.createBody a).getField "model"
      = (a.model.bind fun s => if s != "" then some (Json.str s) else none) ∧
    (∀ k, k ∈ (ReplyClient.createBody a).keys →
      k ∈ ["user_prompt", "conversation_id", "knowledge_base", "max_tokens",
           "num_results", "model"]) := by
  obtain ⟨p, ci, kb, mt, nr, mo⟩ := a
  rcases ci with _ | ci <;> rcases kb with _ | kb <;> rcases mt with _ | mt <;>
    rcases nr with _ | nr <;> rcases mo with _ | mo <;>
    simp only [ReplyClient.createBody] <;>
    first
    | (split_ifs <;> simp_all [Json.getField, Json.keys, List.find?])
    | simp_all [Json.getField, Json.keys, List.find?]

set_option maxHeartbeats 2000000 in
/-- Field characterization of the body built by `ReplyClient.stream`
(identical construction to `ReplyClient.create`'s body). -/
theorem streamBody_fields (a : ReplyArgs) :
    (ReplyClient.streamBody a).getField "user_prompt" = some (Json.str a.prompt) ∧
    (ReplyClient.streamBody a).getField "conversation_id"
      = (a.conversation_id.bind fun v => if v != 0 then some (Json.num v) else none) ∧
    (ReplyClient.streamBody a).getField "knowledge_base"
      = (a.knowledge_base.bind fun s => if s != "" then some (Json.str s) else none) ∧
    (ReplyClient.streamBody a).getField "max_tokens"
      = (a.max_tokens.bind fun v => if v != 0 then some (Json.num v) else none) ∧
    (ReplyClient.streamBody a).getField "num_results"
      = (a.num_results.bind fun v => if v != 0 then some (Json.num v) else none) ∧
    (ReplyClient.streamBody a).getField "model"
      = (a.model.bind fun s => if s != "" then some (Json.str s) else none) ∧
    (∀ k, k ∈ (ReplyClient.streamBody a).keys →
      k ∈ ["user_prompt", "conversation_id", "knowledge_base", "max_tokens",
           "num_results", "model"]) := by
  obtain ⟨p, ci, kb, mt, nr, mo⟩ := a
  rcases ci with _ | ci <;> rcases kb with _ | kb <;> rcases mt with _ | mt <;>
    rcases nr with _ | nr <;> rcases mo with _ | mo <;>
    simp only [ReplyClient.streamBody] <;>
    first
    | (split_ifs <;> simp_all [Json.getField, Json.keys, List.find?])
    | simp_all [Json.getField, Json.keys, List.find?]

/-- A successful url-mode `KnowledgeClient.create` produces a request whose
body has `name` and `url`, has each optional crawl flag exactly when it was
supplied truthy, and has no other fields. -/
theorem knowledgeUrlBody_fields
    (c : BaseClient) (isValidURL : String → Bool) (a : KnowledgeCreateArgs)
    (u : String) (hm : a.method = "url") (hu : a.url = some u)
    (hne : u ≠ "") (hv : isValidURL u = true) :
    ∃ req bj, KnowledgeClient.create c isValidURL a = .ok req ∧
      req.body = some bj ∧
      bj.getField "name" = some (Json.str a.name) ∧
      bj.getField "url" = some (Json.str u) ∧
      bj.getField "recursion"
        = (a.recursion.bind fun r => if r then some (Json.bool r) else none) ∧
      bj.getField "max_recursion"
        = (a.max_recursion.bind fun m => if m != 0 then some (Json.num m) else none) ∧
      bj.getField "only_base_url"
        = (a.only_base_url.bind fun b => if b then some (Json.bool b) else none) ∧
      ∀ k, k ∈ bj.keys →
        k ∈ ["name", "url", "recursion", "max_recursion", "only_base_url"] := by
  have hg : (u == "" || !isValidURL u) = false := by simp [hne, hv]
  obtain ⟨m, n, kb, u0, t0, rc, mr, ob⟩ := a
  dsimp only at hm hu
  subst hm
  subst hu
  rcases rc with _ | r <;> rcases mr with _ | m0 <;> rcases ob with _ | b0 <;>
    simp only [KnowledgeClient.create, hg, Bool.false_eq_true, if_false] <;>
    first
    | (split_ifs <;>
        exact ⟨_, _, rfl, rfl, by simp_all [Json.getField, Json.keys, List.find?]⟩)
    | exact ⟨_, _, rfl, rfl, by simp_all [Json.getField, Json.keys, List.find?]⟩

/-- C5 amended: for all well-formed creation requests, the serialized body
contains the required fields plus exactly those optional fields the caller
supplied with a JavaScript-truthy value; a truthy-supplied optional appears
carrying the supplied value, while an omitted or falsy-supplied optional
does not appear at all (never as null or empty). -/
theorem request_bodies_truthy_optionals
    (c : BaseClient) (isValidURL : String → Bool) (a : KnowledgeCreateArgs)
    (ra : ReplyArgs) (u : String)
    (hm : a.method = "url") (hu : a.url = some u) (hne : u ≠ "")
    (hv : isValidURL u = true) :
    (∃ req bj, KnowledgeClient.create c isValidURL a = .ok req ∧
      req.body = some bj ∧
      bj.getField "name" = some (Json.str a.name) ∧
      bj.getField "url" = some (Json.str u) ∧
      bj.getField "recursion"
        = (a.recursion.bind fun r => if r then some (Json.bool r) else none) ∧
      bj.getField "max_recursion"
        = (a.max_recursion.bind fun m => if m != 0 then some (Json.num m) else none) ∧
      bj.getField "only_base_url"
        = (a.only_base_url.bind fun b => if b then some (Json.bool b) else none) ∧
      ∀ k, k ∈ bj.keys →
        k ∈ ["name", "url", "recursion", "max_recursion", "only_base_url"]) ∧
    (∀ a2 t, a2.method = "text" → a2.text = some t → t ≠ "" →
      ∃ req, KnowledgeClient.create c isValidURL a2 = .ok req ∧
        req.body = some (Json.obj [("name", Json.str a2.name), ("text", Json.str t)])) ∧
    ((ReplyClient.create c ra).body = some (ReplyClient.createBody ra) ∧
      (ReplyClient.createBody ra).getField "user_prompt" = some (Json.str ra.prompt) ∧
      (ReplyClient.createBody ra).getField "conversation_id"
        = (ra.conversation_id.bind fun v => if v != 0 then some (Json.num v) else none) ∧
      (ReplyClient.createBody ra).getField "knowledge_base"
        = (ra.knowledge_base.bind fun s => if s != "" then some (Json.str s) else none) ∧
      (ReplyClient.createBody ra).getField "max_tokens"
        = (ra.max_tokens.bind fun v => if v != 0 then some (Json.num v) else none) ∧
      (ReplyClient.createBody ra).getField "num_results"
        = (ra.num_results.bind fun v => if v != 0 then some (Json.num v) else none) ∧
      (ReplyClient.createBody ra).getField "model"
        = (ra.model.bind fun s => if s != "" then some (Json.str s) else none) ∧
      (∀ k, k ∈ (ReplyClient.createBody ra).keys →
        k ∈ ["user_prompt", "conversation_id", "knowledge_base", "max_tokens",
             "num_results", "model"])) ∧
    ((ReplyClient.stream c ra).body = some (ReplyClient.streamBody ra) ∧
      (ReplyClient.streamBody ra).getField "user_prompt" = some (Json.str ra.prompt) ∧
      (ReplyClient.streamBody ra).getField "conversation_id"
        = (ra.conversation_id.bind fun v => if v != 0 then some (Json.num v) else none) ∧
      (ReplyClient.streamBody ra).getField "knowledge_base"
        = (ra.knowledge_base.bind fun s => if s != "" then some (Json.str s) else none) ∧
      (ReplyClient.streamBody ra).getField "max_tokens"
        = (ra.max_tokens.bind fun v => if v != 0 then some (Json.num v) else none) ∧
      (ReplyClient.streamBody ra).getField "num_results"
        = (ra.num_results.bind fun v => if v != 0 then some (Json.num v) else none) ∧
      (ReplyClient.streamBody ra).getField "model"
        = (ra.model.bind fun s => if s != "" then some (Json.str s) else none) ∧
      (∀ k, k ∈ (ReplyClient.streamBody ra).keys →
        k ∈ ["user_prompt", "conversation_id", "knowledge_base", "max_tokens",
             "num_results", "model"])) := by
  refine ⟨knowledgeUrlBody_fields c isValidURL a u hm hu hne hv, ?_,
    ⟨rfl, createBody_fields ra⟩, ⟨rfl, streamBody_fields ra⟩⟩
  intro a2 t hm2 ht2 hne2
  have hte : (t == "") = false := by simp [hne2]
  obtain ⟨m1, n1, kb1, u1, t1, rc1, mr1, ob1⟩ := a2
  dsimp only at hm2 ht2
  subst hm2
  subst ht2
  simp only [KnowledgeClient.create, hte, Bool.false_eq_true, if_false]
  exact ⟨_, rfl, rfl⟩

/-- Witness for the amended C5: with `recursion := some true` (truthy) and
`max_recursion := some 0` (supplied but falsy), the url-mode body carries
`recursion` and omits `max_recursion`; a truthy `conversation_id` appears in
the reply body with its value. -/
theorem request_bodies_truthy_optionals_witness :
    ∃ req bj,
      KnowledgeClient.create (mkBaseClient "k" "https://api.prism-ai.ch") (fun _ => true)
          { method := "url"
            name := "n"
            kb_id := 1
            url := some "https://e.ch"
            recursion := some true
            max_recursion := some 0 } = .ok req ∧
      req.body = some bj ∧
      bj.getField "recursion" = some (Json.bool true) ∧
      bj.getField "max_recursion" = none ∧
      (ReplyClient.createBody { prompt := "p", conversation_id := some 7 }).getField
        "conversation_id" = some (Json.num 7) := by
  have h := request_bodies_truthy_optionals (mkBaseClient "k" "https://api.prism-ai.ch")
    (fun _ => true)
    { method := "url"
      name := "n"
      kb_id := 1
      url := some "https://e.ch"
      recursion := some true
      max_recursion := some 0 }
    { prompt := "p", conversation_id := some 7 } "https://e.ch" rfl rfl (by decide) rfl
  obtain ⟨⟨req, bj, h1, h2, -, -, hrec, hmax, -, -⟩, -, ⟨-, -, hci, -⟩, -⟩ := h
  exact ⟨req, bj, h1, h2, by simpa using hrec, by simpa using hmax, by simpa using hci⟩

end PrismAI
